import Mathlib

/-!
Shallow embedding of `raiden/transfer/mediated_transfer/state.py` (the
mediated-transfer state value classes) and the serialization round-trip
surface exercised by `raiden/tests/unit/test_dict_encoding.py`.

Python `bytes` objects are modelled as a value (list of byte values)
together with an object identity, so that the source's `is` comparisons
(object identity) can be distinguished from `==` (value equality).
Addresses, hashes and signatures that the source never inspects are
modelled as opaque natural numbers.  Constructors that can raise
`ValueError` are modelled as functions into `Except String`.
-/

/-- A Python `bytes` object: its byte contents together with an object
identity.  `id` is CPython object identity; two objects with the same
contents need not share an identity. -/
structure PyBytes where
  val : List Nat
  id : Nat
deriving DecidableEq

/-- Python `is`: object identity comparison. -/
def pyIs (a b : PyBytes) : Bool :=
  a.id == b.id

/-- Python `==` on `bytes`: value comparison. -/
def pyBytesEq (a b : PyBytes) : Bool :=
  a.val == b.val

/-- The module-level constant `EMPTY_MERKLE_ROOT = b'\x00' * 32` from
`raiden.transfer.state` (imported by the excerpt).  As a module-level
constant it is a single object; its identity is fixed at 0 and every
freshly created bytes object in this development carries a nonzero
identity. -/
def EMPTY_MERKLE_ROOT : PyBytes :=
  ⟨List.replicate 32 0, 0⟩

/-- Modelled from the spec: `keccak256` / `sha3` is consumed as an opaque
cryptographic primitive (spec section 1 places hashing out of scope).  Only
the fact that the constructor applies it to the secret matters here, so it
is modelled as an unspecified concrete function on the opaque secret
values. -/
def sha3 (secret : Nat) : Nat :=
  2 ^ 256 + secret

/-- Modelled from the spec: `HashTimeLockState` is imported from
`raiden.transfer.state`, which is not part of the excerpt; its fields
`{amount, expiration, secrethash}` are given by spec section 3. -/
structure HashTimeLockState where
  amount : Nat
  expiration : Nat
  secrethash : Nat
deriving DecidableEq

/-- Modelled from the spec: `BalanceProofUnsignedState` is imported from
`raiden.transfer.state`; fields `{nonce, transferred_amount, locksroot,
channel_identifier, message_hash}` per spec section 3.  `locksroot` is a
bytes object. -/
structure BalanceProofUnsignedState where
  nonce : Nat
  transferred_amount : Nat
  locksroot : PyBytes
  channel_identifier : Nat
  message_hash : Nat
deriving DecidableEq

/-- Modelled from the spec: `BalanceProofSignedState` is imported from
`raiden.transfer.state`; the unsigned fields plus `{signature, sender}`
per spec section 3, constructed in the excerpt with
`(nonce, transferred_amount, locksroot, channel, message_hash, signature,
sender)`. -/
structure BalanceProofSignedState where
  nonce : Nat
  transferred_amount : Nat
  locksroot : PyBytes
  channel : Nat
  message_hash : Nat
  signature : Nat
  sender : Nat
deriving DecidableEq

/-- `LockedTransferUnsignedState` field record (`__slots__`). -/
structure LockedTransferUnsignedState where
  identifier : Nat
  token : Nat
  balance_proof : BalanceProofUnsignedState
  lock : HashTimeLockState
  initiator : Nat
  target : Nat
deriving DecidableEq

/-- `LockedTransferUnsignedState.__init__`.  The two `isinstance` guards on
`lock` and `balance_proof` are discharged by the Lean types of the
arguments; the remaining guard is the source's
`balance_proof.locksroot is EMPTY_MERKLE_ROOT` identity check. -/
def LockedTransferUnsignedState.init (identifier token : Nat)
    (balance_proof : BalanceProofUnsignedState) (lock : HashTimeLockState)
    (initiator target : Nat) : Except String LockedTransferUnsignedState :=
  if pyIs balance_proof.locksroot EMPTY_MERKLE_ROOT then
    Except.error "balance_proof must not be empty"
  else
    Except.ok ⟨identifier, token, balance_proof, lock, initiator, target⟩

/-- `LockedTransferSignedState` field record (`__slots__`). -/
structure LockedTransferSignedState where
  identifier : Nat
  token : Nat
  balance_proof : BalanceProofSignedState
  lock : HashTimeLockState
  initiator : Nat
  target : Nat
deriving DecidableEq

/-- `LockedTransferSignedState.__init__`: same guards as the unsigned
variant, with a signed balance proof. -/
def LockedTransferSignedState.init (identifier token : Nat)
    (balance_proof : BalanceProofSignedState) (lock : HashTimeLockState)
    (initiator target : Nat) : Except String LockedTransferSignedState :=
  if pyIs balance_proof.locksroot EMPTY_MERKLE_ROOT then
    Except.error "balance_proof must not be empty"
  else
    Except.ok ⟨identifier, token, balance_proof, lock, initiator, target⟩

/-- `TransferDescriptionWithSecretState` field record (`__slots__`). -/
structure TransferDescriptionWithSecretState where
  identifier : Nat
  amount : Nat
  registry : Nat
  token : Nat
  initiator : Nat
  target : Nat
  secret : Nat
  secrethash : Nat
deriving DecidableEq

/-- `TransferDescriptionWithSecretState.__init__`: stores every argument
unchanged and derives `secrethash = sha3(secret)`. -/
def TransferDescriptionWithSecretState.init (identifier amount registry
    token initiator target secret : Nat) : TransferDescriptionWithSecretState :=
  ⟨identifier, amount, registry, token, initiator, target, secret, sha3 secret⟩

/-- `InitiatorPaymentState` field record (`__slots__`). -/
structure InitiatorPaymentState where
  initiator : Nat
  cancelled_channels : List Nat
deriving DecidableEq

/-- `InitiatorPaymentState.__init__`: stores the initiator and an empty
`cancelled_channels` list. -/
def InitiatorPaymentState.init (initiator : Nat) : InitiatorPaymentState :=
  ⟨initiator, []⟩

/-- `InitiatorTransferState` field record (`__slots__`).  `secretrequest`
and `revealsecret` hold messages whose classes are outside the excerpt;
they are modelled as opaque values. -/
structure InitiatorTransferState where
  transfer_description : TransferDescriptionWithSecretState
  channel_identifier : Nat
  transfer : Option LockedTransferUnsignedState
  secretrequest : Option Nat
  revealsecret : Option Nat
deriving DecidableEq

/-- `InitiatorTransferState.__init__`.  The `isinstance` guard on
`transfer_description` is discharged by the Lean type of the argument; the
three progress fields start as `None`. -/
def InitiatorTransferState.init
    (transfer_description : TransferDescriptionWithSecretState)
    (channel_identifier : Nat) : InitiatorTransferState :=
  ⟨transfer_description, channel_identifier, none, none, none⟩

/-- `MediationPairState` field record (`__slots__`).  `payee_address` is a
bytes object (`typing.T_Address = bytes`). -/
structure MediationPairState where
  payer_transfer : LockedTransferSignedState
  payee_address : PyBytes
  payee_transfer : LockedTransferUnsignedState
  payer_state : String
  payee_state : String
deriving DecidableEq

/-- `MediationPairState.valid_payee_states`. -/
def MediationPairState.valid_payee_states : List String :=
  ["payee_pending", "payee_secret_revealed", "payee_refund_withdraw",
   "payee_contract_withdraw", "payee_balance_proof", "payee_expired"]

/-- `MediationPairState.valid_payer_states`. -/
def MediationPairState.valid_payer_states : List String :=
  ["payer_pending", "payer_secret_revealed", "payer_waiting_close",
   "payer_waiting_withdraw", "payer_contract_withdraw",
   "payer_balance_proof", "payer_expired"]

/-- A dynamically typed Python argument, as far as the `isinstance` guards
of `MediationPairState.__init__` can distinguish it: a
`LockedTransferSignedState`, a `LockedTransferUnsignedState`, a `bytes`
object (`typing.T_Address = bytes`), `None`, or an `int`. -/
inductive PyObj where
  | signed (t : LockedTransferSignedState)
  | unsigned (t : LockedTransferUnsignedState)
  | bytes (b : PyBytes)
  | pynone
  | pyint (n : Nat)
deriving DecidableEq

/-- `MediationPairState.__init__`: three `isinstance` guards in source
order (payer transfer, payee address, payee transfer), then the fields are
stored and both sides start in their pending states.  No relation between
the two locks is checked. -/
def MediationPairState.init (payer_transfer payee_address payee_transfer :
    PyObj) : Except String MediationPairState :=
  match payer_transfer with
  | PyObj.signed pt =>
    match payee_address with
    | PyObj.bytes addr =>
      match payee_transfer with
      | PyObj.unsigned pe =>
        Except.ok ⟨pt, addr, pe, "payer_pending", "payee_pending"⟩
      | _ => Except.error "payee_transfer must be a LockedTransferUnsignedState instance"
    | _ => Except.error "payee_address must be an address"
  | _ => Except.error "payer_transfer must be a LockedTransferSignedState instance"

/-- `MediatorTransferState` field record (`__slots__`). -/
structure MediatorTransferState where
  secrethash : Nat
  secret : Option Nat
  transfers_pair : List MediationPairState
deriving DecidableEq

/-- `MediatorTransferState.__init__`: stores the secrethash, `secret =
None` and an empty `transfers_pair` list. -/
def MediatorTransferState.init (secrethash : Nat) : MediatorTransferState :=
  ⟨secrethash, none, []⟩

/-- `TargetTransferState` field record.  The declared slot `hahslock` is
never assigned anywhere in the source and is omitted; `route` holds a
`RouteState`, a class outside the excerpt, modelled as an opaque value. -/
structure TargetTransferState where
  route : Nat
  transfer : LockedTransferSignedState
  secret : Option Nat
  state : String
deriving DecidableEq

/-- `TargetTransferState.valid_states`. -/
def TargetTransferState.valid_states : List String :=
  ["secret_request", "reveal_secret", "waiting_close", "expired"]

/-- `TargetTransferState.__init__`: stores route and transfer, `secret =
None`, and starts in state `secret_request`. -/
def TargetTransferState.init (route : Nat)
    (transfer : LockedTransferSignedState) : TargetTransferState :=
  ⟨route, transfer, none, "secret_request"⟩

/-- The fields of a received `LockedTransfer` message that
`lockedtransfersigned_from_message` reads.  The message class itself lives
in `raiden.messages`, outside the excerpt; the fields are exactly those the
function accesses. -/
structure LockedTransferMessage where
  nonce : Nat
  transferred_amount : Nat
  locksroot : PyBytes
  channel : Nat
  message_hash : Nat
  signature : Nat
  sender : Nat
  lock : HashTimeLockState
  identifier : Nat
  token : Nat
  initiator : Nat
  target : Nat
deriving DecidableEq

/-- `lockedtransfersigned_from_message`: builds the signed balance proof
and the lock from the message fields and constructs a
`LockedTransferSignedState` from them. -/
def lockedtransfersigned_from_message (message : LockedTransferMessage) :
    Except String LockedTransferSignedState :=
  let balance_proof : BalanceProofSignedState :=
    ⟨message.nonce, message.transferred_amount, message.locksroot,
     message.channel, message.message_hash, message.signature,
     message.sender⟩
  let lock : HashTimeLockState :=
    ⟨message.lock.amount, message.lock.expiration, message.lock.secrethash⟩
  LockedTransferSignedState.init message.identifier message.token
    balance_proof lock message.initiator message.target

/-- Python `==` on optional values: `None == None` is true, `None` never
equals an object, and two objects compare with the element comparison. -/
def optEqWith {α : Type} (f : α → α → Bool) : Option α → Option α → Bool
  | none, none => true
  | some a, some b => f a b
  | _, _ => false

/-- Python `==` on lists: elementwise with the element comparison. -/
def listEqWith {α : Type} (f : α → α → Bool) : List α → List α → Bool
  | [], [] => true
  | a :: as, b :: bs => f a b && listEqWith f as bs
  | _, _ => false

/-- Modelled from the spec: structural equality of `HashTimeLockState`
(its `__eq__` lives outside the excerpt; spec section 3 declares all state
value-semantic and structurally compared). -/
def HashTimeLockState.eq (a b : HashTimeLockState) : Bool :=
  a.amount == b.amount && a.expiration == b.expiration &&
  a.secrethash == b.secrethash

/-- Modelled from the spec: structural equality of
`BalanceProofUnsignedState`; bytes fields compare by value. -/
def BalanceProofUnsignedState.eq (a b : BalanceProofUnsignedState) : Bool :=
  a.nonce == b.nonce && a.transferred_amount == b.transferred_amount &&
  pyBytesEq a.locksroot b.locksroot &&
  a.channel_identifier == b.channel_identifier &&
  a.message_hash == b.message_hash

/-- Modelled from the spec: structural equality of
`BalanceProofSignedState`; bytes fields compare by value. -/
def BalanceProofSignedState.eq (a b : BalanceProofSignedState) : Bool :=
  a.nonce == b.nonce && a.transferred_amount == b.transferred_amount &&
  pyBytesEq a.locksroot b.locksroot && a.channel == b.channel &&
  a.message_hash == b.message_hash && a.signature == b.signature &&
  a.sender == b.sender

/-- `LockedTransferUnsignedState.__eq__`: isinstance check plus the six
slot fields in source order. -/
def LockedTransferUnsignedState.eq (a b : LockedTransferUnsignedState) : Bool :=
  a.identifier == b.identifier && a.token == b.token &&
  BalanceProofUnsignedState.eq a.balance_proof b.balance_proof &&
  HashTimeLockState.eq a.lock b.lock &&
  a.initiator == b.initiator && a.target == b.target

/-- `LockedTransferSignedState.__eq__`: isinstance check plus the six slot
fields in source order. -/
def LockedTransferSignedState.eq (a b : LockedTransferSignedState) : Bool :=
  a.identifier == b.identifier && a.token == b.token &&
  BalanceProofSignedState.eq a.balance_proof b.balance_proof &&
  HashTimeLockState.eq a.lock b.lock &&
  a.initiator == b.initiator && a.target == b.target

/-- `TransferDescriptionWithSecretState.__eq__`: all eight slot fields. -/
def TransferDescriptionWithSecretState.eq
    (a b : TransferDescriptionWithSecretState) : Bool :=
  a.identifier == b.identifier && a.amount == b.amount &&
  a.registry == b.registry && a.token == b.token &&
  a.initiator == b.initiator && a.target == b.target &&
  a.secret == b.secret && a.secrethash == b.secrethash

/-- `InitiatorPaymentState.__eq__`: initiator and cancelled channels. -/
def InitiatorPaymentState.eq (a b : InitiatorPaymentState) : Bool :=
  a.initiator == b.initiator && a.cancelled_channels == b.cancelled_channels

/-- `InitiatorTransferState.__eq__`: all five slot fields; the nested
description and optional transfer compare with their own equality. -/
def InitiatorTransferState.eq (a b : InitiatorTransferState) : Bool :=
  TransferDescriptionWithSecretState.eq a.transfer_description b.transfer_description &&
  a.channel_identifier == b.channel_identifier &&
  optEqWith LockedTransferUnsignedState.eq a.transfer b.transfer &&
  a.secretrequest == b.secretrequest && a.revealsecret == b.revealsecret

/-- `MediationPairState.__eq__`: the five slot fields in source order
(payee address, payee transfer, payee state, payer transfer, payer
state). -/
def MediationPairState.eq (a b : MediationPairState) : Bool :=
  pyBytesEq a.payee_address b.payee_address &&
  LockedTransferUnsignedState.eq a.payee_transfer b.payee_transfer &&
  a.payee_state == b.payee_state &&
  LockedTransferSignedState.eq a.payer_transfer b.payer_transfer &&
  a.payer_state == b.payer_state

/-- `MediatorTransferState.__eq__`: secrethash, secret and the transfers
pair list (elementwise). -/
def MediatorTransferState.eq (a b : MediatorTransferState) : Bool :=
  a.secrethash == b.secrethash && a.secret == b.secret &&
  listEqWith MediationPairState.eq a.transfers_pair b.transfers_pair

/-- `TargetTransferState.__eq__`: route, transfer, secret and state (the
unassigned `hahslock` slot is not compared). -/
def TargetTransferState.eq (a b : TargetTransferState) : Bool :=
  a.route == b.route &&
  LockedTransferSignedState.eq a.transfer b.transfer &&
  a.secret == b.secret && a.state == b.state

/-- Erase the object identity of a bytes value, keeping its contents.
Python `==` on these states is exactly equality of the identity-erased
values. -/
def PyBytes.strip (b : PyBytes) : PyBytes :=
  ⟨b.val, 0⟩

/-- Identity erasure on `BalanceProofUnsignedState`. -/
def BalanceProofUnsignedState.strip (x : BalanceProofUnsignedState) :
    BalanceProofUnsignedState :=
  ⟨x.nonce, x.transferred_amount, x.locksroot.strip, x.channel_identifier,
   x.message_hash⟩

/-- Identity erasure on `BalanceProofSignedState`. -/
def BalanceProofSignedState.strip (x : BalanceProofSignedState) :
    BalanceProofSignedState :=
  ⟨x.nonce, x.transferred_amount, x.locksroot.strip, x.channel,
   x.message_hash, x.signature, x.sender⟩

/-- Identity erasure on `LockedTransferUnsignedState`. -/
def LockedTransferUnsignedState.strip (x : LockedTransferUnsignedState) :
    LockedTransferUnsignedState :=
  ⟨x.identifier, x.token, x.balance_proof.strip, x.lock, x.initiator,
   x.target⟩

/-- Identity erasure on `LockedTransferSignedState`. -/
def LockedTransferSignedState.strip (x : LockedTransferSignedState) :
    LockedTransferSignedState :=
  ⟨x.identifier, x.token, x.balance_proof.strip, x.lock, x.initiator,
   x.target⟩

/-- Identity erasure on `MediationPairState`. -/
def MediationPairState.strip (x : MediationPairState) : MediationPairState :=
  ⟨x.payer_transfer.strip, x.payee_address.strip, x.payee_transfer.strip,
   x.payer_state, x.payee_state⟩

/-- Identity erasure on `MediatorTransferState`. -/
def MediatorTransferState.strip (x : MediatorTransferState) :
    MediatorTransferState :=
  ⟨x.secrethash, x.secret, x.transfers_pair.map MediationPairState.strip⟩

/-- Identity erasure on `InitiatorTransferState`. -/
def InitiatorTransferState.strip (x : InitiatorTransferState) :
    InitiatorTransferState :=
  ⟨x.transfer_description, x.channel_identifier,
   x.transfer.map LockedTransferUnsignedState.strip, x.secretrequest,
   x.revealsecret⟩

/-- Identity erasure on `TargetTransferState`. -/
def TargetTransferState.strip (x : TargetTransferState) :
    TargetTransferState :=
  ⟨x.route, x.transfer.strip, x.secret, x.state⟩

/-- A value of one of the state classes defined in the source file, for
stating how `__eq__` behaves across classes. -/
inductive StateValue where
  | initiatorPayment (s : InitiatorPaymentState)
  | initiatorTransfer (s : InitiatorTransferState)
  | mediatorTransfer (s : MediatorTransferState)
  | targetTransfer (s : TargetTransferState)
  | lockedTransferUnsigned (s : LockedTransferUnsignedState)
  | lockedTransferSigned (s : LockedTransferSignedState)
  | transferDescription (s : TransferDescriptionWithSecretState)
  | mediationPair (s : MediationPairState)
deriving DecidableEq

/-- Python `==` over the state classes: each `__eq__` begins with an
`isinstance` check on its own class, so values of different classes are
never equal; values of the same class compare fieldwise. -/
def stateEq : StateValue → StateValue → Bool
  | StateValue.initiatorPayment a, StateValue.initiatorPayment b =>
    InitiatorPaymentState.eq a b
  | StateValue.initiatorTransfer a, StateValue.initiatorTransfer b =>
    InitiatorTransferState.eq a b
  | StateValue.mediatorTransfer a, StateValue.mediatorTransfer b =>
    MediatorTransferState.eq a b
  | StateValue.targetTransfer a, StateValue.targetTransfer b =>
    TargetTransferState.eq a b
  | StateValue.lockedTransferUnsigned a, StateValue.lockedTransferUnsigned b =>
    LockedTransferUnsignedState.eq a b
  | StateValue.lockedTransferSigned a, StateValue.lockedTransferSigned b =>
    LockedTransferSignedState.eq a b
  | StateValue.transferDescription a, StateValue.transferDescription b =>
    TransferDescriptionWithSecretState.eq a b
  | StateValue.mediationPair a, StateValue.mediationPair b =>
    MediationPairState.eq a b
  | _, _ => false

/-- Python `!=` over the state classes: every class defines `__ne__` as
the negation of its `__eq__`. -/
def stateNe (x y : StateValue) : Bool :=
  ! stateEq x y

/-- Identity erasure over the state classes. -/
def StateValue.strip : StateValue → StateValue
  | StateValue.initiatorPayment s => StateValue.initiatorPayment s
  | StateValue.initiatorTransfer s => StateValue.initiatorTransfer s.strip
  | StateValue.mediatorTransfer s => StateValue.mediatorTransfer s.strip
  | StateValue.targetTransfer s => StateValue.targetTransfer s.strip
  | StateValue.lockedTransferUnsigned s => StateValue.lockedTransferUnsigned s.strip
  | StateValue.lockedTransferSigned s => StateValue.lockedTransferSigned s.strip
  | StateValue.transferDescription s => StateValue.transferDescription s
  | StateValue.mediationPair s => StateValue.mediationPair s.strip

/-- Which state class a `StateValue` belongs to. -/
def kindIdx : StateValue → Nat
  | StateValue.initiatorPayment _ => 0
  | StateValue.initiatorTransfer _ => 1
  | StateValue.mediatorTransfer _ => 2
  | StateValue.targetTransfer _ => 3
  | StateValue.lockedTransferUnsigned _ => 4
  | StateValue.lockedTransferSigned _ => 5
  | StateValue.transferDescription _ => 6
  | StateValue.mediationPair _ => 7

/-- Modelled from the spec: the target-role transitions of section 4.3
(the transition code is not part of the excerpt).  A `TargetTransferState`
is reachable when it is freshly constructed, or follows from a reachable
state by a secret reveal, by waiting for close, or by expiry. -/
inductive TargetReachable : TargetTransferState → Prop where
  | fresh (route : Nat) (transfer : LockedTransferSignedState) :
      TargetReachable (TargetTransferState.init route transfer)
  | reveal {s : TargetTransferState} (secret : Nat) :
      TargetReachable s → s.state = "secret_request" →
      TargetReachable ⟨s.route, s.transfer, some secret, "reveal_secret"⟩
  | waitingClose {s : TargetTransferState} :
      TargetReachable s → s.state = "secret_request" →
      TargetReachable ⟨s.route, s.transfer, s.secret, "waiting_close"⟩
  | expired {s : TargetTransferState} :
      TargetReachable s →
      TargetReachable ⟨s.route, s.transfer, s.secret, "expired"⟩

/-- `UINT64_MAX` from `raiden.constants` (imported by the test file). -/
def UINT64_MAX : Nat :=
  2 ^ 64 - 1

/-- `UINT256_MAX` from `raiden.constants` (imported by the test file). -/
def UINT256_MAX : Nat :=
  2 ^ 256 - 1

/-- Modelled from the spec: the decimal-string encoding of a numeric field
(spec section 4.4), as its list of decimal digits, most significant
first. -/
def encodeDecimal (n : Nat) : List Nat :=
  (Nat.digits 10 n).reverse

/-- Modelled from the spec: decoding a decimal string. -/
def decodeDecimal (l : List Nat) : Nat :=
  Nat.ofDigits 10 l.reverse

/-- Modelled from the spec: the hex encoding of a binary field (spec
section 4.4), as its list of hex digits, most significant first. -/
def encodeHex (n : Nat) : List Nat :=
  (Nat.digits 16 n).reverse

/-- Modelled from the spec: decoding a hex string. -/
def decodeHex (l : List Nat) : Nat :=
  Nat.ofDigits 16 l.reverse

/-- Modelled from the spec: the `DirectTransfer` message
(`raiden.messages` is not part of the excerpt).  Its fields are the
`LockedTransfer` wire fields of spec section 6 that a direct transfer
carries: no lock, no target, no initiator, no fee. -/
structure DirectTransfer where
  nonce : Nat
  identifier : Nat
  token : Nat
  channel : Nat
  recipient : Nat
  transferred_amount : Nat
  locksroot : Nat
  signature : Nat
deriving DecidableEq

/-- Modelled from the spec: the `LockedTransfer` message with the wire
fields of spec section 6. -/
structure LockedTransfer where
  nonce : Nat
  identifier : Nat
  expiration : Nat
  token : Nat
  channel : Nat
  recipient : Nat
  target : Nat
  initiator : Nat
  locksroot : Nat
  secrethash : Nat
  transferred_amount : Nat
  amount : Nat
  fee : Nat
  signature : Nat
deriving DecidableEq

/-- Modelled from the spec: the `RefundTransfer` message, sharing the
`LockedTransfer` wire fields (spec section 6). -/
structure RefundTransfer where
  nonce : Nat
  identifier : Nat
  expiration : Nat
  token : Nat
  channel : Nat
  recipient : Nat
  target : Nat
  initiator : Nat
  locksroot : Nat
  secrethash : Nat
  transferred_amount : Nat
  amount : Nat
  fee : Nat
  signature : Nat
deriving DecidableEq

/-- The canonical mapping of a `DirectTransfer`: one string-keyed entry
per field, numeric fields as decimal strings, binary fields as hex. -/
structure DirectTransferMapping where
  nonce : List Nat
  identifier : List Nat
  token : List Nat
  channel : List Nat
  recipient : List Nat
  transferred_amount : List Nat
  locksroot : List Nat
  signature : List Nat
deriving DecidableEq

/-- The canonical mapping of a `LockedTransfer` or `RefundTransfer`. -/
structure LockedTransferMapping where
  nonce : List Nat
  identifier : List Nat
  expiration : List Nat
  token : List Nat
  channel : List Nat
  recipient : List Nat
  target : List Nat
  initiator : List Nat
  locksroot : List Nat
  secrethash : List Nat
  transferred_amount : List Nat
  amount : List Nat
  fee : List Nat
  signature : List Nat
deriving DecidableEq

/-- Modelled from the spec: `DirectTransfer.to_mapping` (spec section
4.4): numeric fields as decimal strings, binary fields as hex strings. -/
def DirectTransfer.to_mapping (x : DirectTransfer) : DirectTransferMapping :=
  ⟨encodeDecimal x.nonce, encodeDecimal x.identifier, encodeHex x.token,
   encodeHex x.channel, encodeHex x.recipient,
   encodeDecimal x.transferred_amount, encodeHex x.locksroot,
   encodeHex x.signature⟩

/-- Modelled from the spec: `DirectTransfer.from_mapping`. -/
def DirectTransfer.from_mapping (m : DirectTransferMapping) : DirectTransfer :=
  ⟨decodeDecimal m.nonce, decodeDecimal m.identifier, decodeHex m.token,
   decodeHex m.channel, decodeHex m.recipient,
   decodeDecimal m.transferred_amount, decodeHex m.locksroot,
   decodeHex m.signature⟩

/-- Modelled from the spec: `LockedTransfer.to_mapping`. -/
def LockedTransfer.to_mapping (x : LockedTransfer) : LockedTransferMapping :=
  ⟨encodeDecimal x.nonce, encodeDecimal x.identifier,
   encodeDecimal x.expiration, encodeHex x.token, encodeHex x.channel,
   encodeHex x.recipient, encodeHex x.target, encodeHex x.initiator,
   encodeHex x.locksroot, encodeHex x.secrethash,
   encodeDecimal x.transferred_amount, encodeDecimal x.amount,
   encodeDecimal x.fee, encodeHex x.signature⟩

/-- Modelled from the spec: `LockedTransfer.from_mapping`. -/
def LockedTransfer.from_mapping (m : LockedTransferMapping) : LockedTransfer :=
  ⟨decodeDecimal m.nonce, decodeDecimal m.identifier,
   decodeDecimal m.expiration, decodeHex m.token, decodeHex m.channel,
   decodeHex m.recipient, decodeHex m.target, decodeHex m.initiator,
   decodeHex m.locksroot, decodeHex m.secrethash,
   decodeDecimal m.transferred_amount, decodeDecimal m.amount,
   decodeDecimal m.fee, decodeHex m.signature⟩

/-- Modelled from the spec: `RefundTransfer.to_mapping`. -/
def RefundTransfer.to_mapping (x : RefundTransfer) : LockedTransferMapping :=
  ⟨encodeDecimal x.nonce, encodeDecimal x.identifier,
   encodeDecimal x.expiration, encodeHex x.token, encodeHex x.channel,
   encodeHex x.recipient, encodeHex x.target, encodeHex x.initiator,
   encodeHex x.locksroot, encodeHex x.secrethash,
   encodeDecimal x.transferred_amount, encodeDecimal x.amount,
   encodeDecimal x.fee, encodeHex x.signature⟩

/-- Modelled from the spec: `RefundTransfer.from_mapping`. -/
def RefundTransfer.from_mapping (m : LockedTransferMapping) : RefundTransfer :=
  ⟨decodeDecimal m.nonce, decodeDecimal m.identifier,
   decodeDecimal m.expiration, decodeHex m.token, decodeHex m.channel,
   decodeHex m.recipient, decodeHex m.target, decodeHex m.initiator,
   decodeHex m.locksroot, decodeHex m.secrethash,
   decodeDecimal m.transferred_amount, decodeDecimal m.amount,
   decodeDecimal m.fee, decodeHex m.signature⟩

/-- A non-empty locksroot value held by a freshly created bytes object. -/
def sampleLocksroot : PyBytes :=
  ⟨List.replicate 31 0 ++ [1], 1⟩

/-- A freshly created bytes object whose contents equal
`EMPTY_MERKLE_ROOT` (32 zero bytes) but whose identity differs from the
module-level constant, as happens for any locksroot received off the
wire. -/
def freshEmptyLocksroot : PyBytes :=
  ⟨List.replicate 32 0, 7⟩

/-- A payee address: a 20-byte bytes object. -/
def sampleAddress : PyBytes :=
  ⟨List.replicate 20 5, 2⟩

/-- A signed balance proof with a non-empty locksroot. -/
def sampleSignedBalanceProof : BalanceProofSignedState :=
  ⟨1, 0, sampleLocksroot, 10, 11, 12, 13⟩

/-- An unsigned balance proof with a non-empty locksroot. -/
def sampleUnsignedBalanceProof : BalanceProofUnsignedState :=
  ⟨1, 0, sampleLocksroot, 20, 21⟩

/-- An unsigned balance proof whose locksroot is a fresh object holding
the empty merkle root value. -/
def emptyValUnsignedBalanceProof : BalanceProofUnsignedState :=
  ⟨1, 0, freshEmptyLocksroot, 20, 21⟩

/-- A signed balance proof whose locksroot is a fresh object holding the
empty merkle root value. -/
def emptyValSignedBalanceProof : BalanceProofSignedState :=
  ⟨1, 0, freshEmptyLocksroot, 10, 11, 12, 13⟩

/-- A hash time lock used where its numbers do not matter. -/
def sampleLock : HashTimeLockState :=
  ⟨50, 40, 77⟩

/-- A signed locked transfer used as a generic field value. -/
def sampleSignedTransfer : LockedTransferSignedState :=
  ⟨1, 2, sampleSignedBalanceProof, sampleLock, 3, 4⟩

/-- Payer lock for the timing counterexample: amount 100, expiration
10. -/
def timingPayerLock : HashTimeLockState :=
  ⟨100, 10, 77⟩

/-- Payee lock for the timing counterexample: amount 99, expiration 100,
far later than the payer lock. -/
def timingPayeeLock : HashTimeLockState :=
  ⟨99, 100, 77⟩

/-- Payer transfer for the timing counterexample. -/
def timingPayerTransfer : LockedTransferSignedState :=
  ⟨1, 2, sampleSignedBalanceProof, timingPayerLock, 3, 4⟩

/-- Payee transfer for the timing counterexample. -/
def timingPayeeTransfer : LockedTransferUnsignedState :=
  ⟨1, 2, sampleUnsignedBalanceProof, timingPayeeLock, 3, 4⟩

/-- The pair the constructor produces in the timing counterexample. -/
def timingPair : MediationPairState :=
  ⟨timingPayerTransfer, sampleAddress, timingPayeeTransfer,
   "payer_pending", "payee_pending"⟩

/-- Payer lock for the amount counterexample: amount 100. -/
def amountPayerLock : HashTimeLockState :=
  ⟨100, 200, 77⟩

/-- Payee lock for the amount counterexample: amount 200, more than the
incoming lock. -/
def amountPayeeLock : HashTimeLockState :=
  ⟨200, 50, 77⟩

/-- Payer transfer for the amount counterexample. -/
def amountPayerTransfer : LockedTransferSignedState :=
  ⟨1, 2, sampleSignedBalanceProof, amountPayerLock, 3, 4⟩

/-- Payee transfer for the amount counterexample. -/
def amountPayeeTransfer : LockedTransferUnsignedState :=
  ⟨1, 2, sampleUnsignedBalanceProof, amountPayeeLock, 3, 4⟩

/-- The pair the constructor produces in the amount counterexample. -/
def amountPair : MediationPairState :=
  ⟨amountPayerTransfer, sampleAddress, amountPayeeTransfer,
   "payer_pending", "payee_pending"⟩

/-- A received `LockedTransfer` message whose locksroot came off the wire
as 32 zero bytes: value-equal to `EMPTY_MERKLE_ROOT`, but a distinct
object. -/
def emptyRootMessage : LockedTransferMessage :=
  ⟨1, 0, freshEmptyLocksroot, 10, 11, 12, 13, ⟨50, 40, 77⟩, 1, 2, 3, 4⟩

/-- A `DirectTransfer` at boundary values: identifier 0, maximal nonce,
maximal transferred amount. -/
def boundaryDirect : DirectTransfer :=
  ⟨UINT64_MAX, 0, 1, 2, 3, UINT256_MAX, 4, 5⟩

/-- A `LockedTransfer` at boundary values: maximal identifier, nonce 1,
transferred amount 0, maximal amount and fee. -/
def boundaryLocked : LockedTransfer :=
  ⟨1, UINT64_MAX, 6, 1, 2, 3, 7, 8, 4, 9, 0, UINT256_MAX, UINT256_MAX, 5⟩

/-- A `RefundTransfer` at boundary values: maximal identifier, maximal
nonce, maximal transferred amount, amount 0, fee 0. -/
def boundaryRefund : RefundTransfer :=
  ⟨UINT64_MAX, UINT64_MAX, 6, 1, 2, 3, 7, 8, 4, 9, UINT256_MAX, 0, 0, 5⟩

theorem decodeDecimal_encodeDecimal (n : Nat) :
    decodeDecimal (encodeDecimal n) = n := by
  simp [decodeDecimal, encodeDecimal, Nat.ofDigits_digits]

theorem decodeHex_encodeHex (n : Nat) :
    decodeHex (encodeHex n) = n := by
  simp [decodeHex, encodeHex, Nat.ofDigits_digits]

/-- C5: a TransferDescriptionWithSecretState constructed from a secret has
secrethash keccak256 of the secret, and its identifier, amount, registry,
token, initiator, target and secret fields equal the constructor
arguments unchanged. -/
theorem transfer_description_fields
    (identifier amount registry token initiator target secret : Nat) :
    (TransferDescriptionWithSecretState.init identifier amount registry
        token initiator target secret).secrethash = sha3 secret ∧
    (TransferDescriptionWithSecretState.init identifier amount registry
        token initiator target secret).identifier = identifier ∧
    (TransferDescriptionWithSecretState.init identifier amount registry
        token initiator target secret).amount = amount ∧
    (TransferDescriptionWithSecretState.init identifier amount registry
        token initiator target secret).registry = registry ∧
    (TransferDescriptionWithSecretState.init identifier amount registry
        token initiator target secret).token = token ∧
    (TransferDescriptionWithSecretState.init identifier amount registry
        token initiator target secret).initiator = initiator ∧
    (TransferDescriptionWithSecretState.init identifier amount registry
        token initiator target secret).target = target ∧
    (TransferDescriptionWithSecretState.init identifier amount registry
        token initiator target secret).secret = secret :=
  ⟨rfl, rfl, rfl, rfl, rfl, rfl, rfl, rfl⟩

/-- C9: a freshly built MediatorTransferState has secret None and an empty
transfers_pair list, and a freshly built InitiatorTransferState has
transfer, secretrequest and revealsecret all None. -/
theorem fresh_role_states_unset :
    (∀ secrethash : Nat,
      (MediatorTransferState.init secrethash).secret = none ∧
      (MediatorTransferState.init secrethash).transfers_pair = []) ∧
    (∀ (d : TransferDescriptionWithSecretState) (cid : Nat),
      (InitiatorTransferState.init d cid).transfer = none ∧
      (InitiatorTransferState.init d cid).secretrequest = none ∧
      (InitiatorTransferState.init d cid).revealsecret = none) :=
  ⟨fun _ => ⟨rfl, rfl⟩, fun _ _ => ⟨rfl, rfl, rfl⟩⟩

/-- C4: for DirectTransfer, LockedTransfer and RefundTransfer values
within the valid field ranges, deserializing the canonical mapping
returns the same value: from_mapping of to_mapping is the identity. -/
theorem message_mapping_roundtrip :
    (∀ x : DirectTransfer, x.identifier ≤ UINT64_MAX → 1 ≤ x.nonce →
      x.nonce ≤ UINT64_MAX → x.transferred_amount ≤ UINT256_MAX →
      DirectTransfer.from_mapping x.to_mapping = x) ∧
    (∀ x : LockedTransfer, x.identifier ≤ UINT64_MAX → 1 ≤ x.nonce →
      x.nonce ≤ UINT64_MAX → x.transferred_amount ≤ UINT256_MAX →
      x.amount ≤ UINT256_MAX → x.fee ≤ UINT256_MAX →
      LockedTransfer.from_mapping x.to_mapping = x) ∧
    (∀ x : RefundTransfer, x.identifier ≤ UINT64_MAX → 1 ≤ x.nonce →
      x.nonce ≤ UINT64_MAX → x.transferred_amount ≤ UINT256_MAX →
      x.amount ≤ UINT256_MAX → x.fee ≤ UINT256_MAX →
      RefundTransfer.from_mapping x.to_mapping = x) := by
  refine ⟨fun x _ _ _ _ => ?_, fun x _ _ _ _ _ _ => ?_, fun x _ _ _ _ _ _ => ?_⟩
  · cases x
    simp [DirectTransfer.to_mapping, DirectTransfer.from_mapping,
      decodeDecimal_encodeDecimal, decodeHex_encodeHex]
  · cases x
    simp [LockedTransfer.to_mapping, LockedTransfer.from_mapping,
      decodeDecimal_encodeDecimal, decodeHex_encodeHex]
  · cases x
    simp [RefundTransfer.to_mapping, RefundTransfer.from_mapping,
      decodeDecimal_encodeDecimal, decodeHex_encodeHex]

/-- C4 witness: the round trip evaluated at boundary values 0,
UINT64_MAX and UINT256_MAX for each of the three message types. -/
theorem message_mapping_roundtrip_witness :
    DirectTransfer.from_mapping boundaryDirect.to_mapping = boundaryDirect ∧
    LockedTransfer.from_mapping boundaryLocked.to_mapping = boundaryLocked ∧
    RefundTransfer.from_mapping boundaryRefund.to_mapping = boundaryRefund :=
  ⟨message_mapping_roundtrip.1 boundaryDirect (by decide) (by decide)
      (by decide) (by decide),
   message_mapping_roundtrip.2.1 boundaryLocked (by decide) (by decide)
      (by decide) (by decide) (by decide) (by decide),
   message_mapping_roundtrip.2.2 boundaryRefund (by decide) (by decide)
      (by decide) (by decide) (by decide) (by decide)⟩

/-- C8: MediationPairState construction succeeds exactly when the payer
transfer is a LockedTransferSignedState, the payee address is a bytes
address and the payee transfer is a LockedTransferUnsignedState; for any
other argument shapes it raises ValueError and produces no pair; on
success the pair starts with payer_state payer_pending and payee_state
payee_pending. -/
theorem mediation_pair_construction :
    (∀ a b c : PyObj,
      (∃ p, MediationPairState.init a b c = Except.ok p) ↔
        ((∃ pt, a = PyObj.signed pt) ∧ (∃ ad, b = PyObj.bytes ad) ∧
         (∃ pe, c = PyObj.unsigned pe))) ∧
    (∀ (pt : LockedTransferSignedState) (ad : PyBytes)
        (pe : LockedTransferUnsignedState),
      MediationPairState.init (PyObj.signed pt) (PyObj.bytes ad)
          (PyObj.unsigned pe) =
        Except.ok ⟨pt, ad, pe, "payer_pending", "payee_pending"⟩) := by
  constructor
  · intro a b c
    cases a <;> cases b <;> cases c <;> simp [MediationPairState.init]
  · intro pt ad pe
    rfl

/-- C6: every reachable TargetTransferState has its state field among the
four valid states, and a freshly constructed one is in state
secret_request with secret None. -/
theorem target_state_valid :
    (∀ s : TargetTransferState, TargetReachable s →
      s.state ∈ TargetTransferState.valid_states) ∧
    (∀ (route : Nat) (transfer : LockedTransferSignedState),
      (TargetTransferState.init route transfer).state = "secret_request" ∧
      (TargetTransferState.init route transfer).secret = none) := by
  constructor
  · intro s h
    induction h with
    | fresh route transfer =>
      show "secret_request" ∈ TargetTransferState.valid_states
      decide
    | reveal secret _ _ =>
      show "reveal_secret" ∈ TargetTransferState.valid_states
      decide
    | waitingClose _ _ =>
      show "waiting_close" ∈ TargetTransferState.valid_states
      decide
    | expired _ =>
      show "expired" ∈ TargetTransferState.valid_states
      decide
  · intro route transfer
    exact ⟨rfl, rfl⟩

/-- C6 witness: the theorem applied to a concrete freshly constructed
target state. -/
theorem target_state_valid_witness :
    (TargetTransferState.init 0 sampleSignedTransfer).state ∈
      TargetTransferState.valid_states :=
  target_state_valid.1 (TargetTransferState.init 0 sampleSignedTransfer)
    (TargetReachable.fresh 0 sampleSignedTransfer)

/-- C1 counterexample: the MediationPairState constructor accepts a pair
whose payee lock expires 90 blocks after the payer lock, so a pair
violating the timing relation (with reveal timeout 5, the value of the
spec seed scenario, or indeed any reveal timeout) is constructed; both
transfers are themselves built through their own checked constructors. -/
theorem mediation_pair_timing_counterexample :
    LockedTransferSignedState.init 1 2 sampleSignedBalanceProof
        timingPayerLock 3 4 = Except.ok timingPayerTransfer ∧
    LockedTransferUnsignedState.init 1 2 sampleUnsignedBalanceProof
        timingPayeeLock 3 4 = Except.ok timingPayeeTransfer ∧
    MediationPairState.init (PyObj.signed timingPayerTransfer)
        (PyObj.bytes sampleAddress) (PyObj.unsigned timingPayeeTransfer) =
      Except.ok timingPair ∧
    ¬ (timingPair.payee_transfer.lock.expiration + 5 ≤
        timingPair.payer_transfer.lock.expiration) :=
  ⟨rfl, rfl, rfl, by decide⟩

/-- C1 amended: the MediationPairState constructor checks only the
argument types and never the lock expirations; even when the payee lock
expires after the payer lock minus the reveal timeout, construction
succeeds and yields the pair with both sides pending. -/
theorem mediation_pair_no_timing_check
    (pt : LockedTransferSignedState) (ad : PyBytes)
    (pe : LockedTransferUnsignedState) (reveal_timeout : Nat)
    (h : pt.lock.expiration < pe.lock.expiration + reveal_timeout) :
    MediationPairState.init (PyObj.signed pt) (PyObj.bytes ad)
        (PyObj.unsigned pe) =
      Except.ok ⟨pt, ad, pe, "payer_pending", "payee_pending"⟩ :=
  rfl

/-- C1 amended witness: the amended statement at the concrete violating
pair. -/
theorem mediation_pair_no_timing_check_witness :
    MediationPairState.init (PyObj.signed timingPayerTransfer)
        (PyObj.bytes sampleAddress) (PyObj.unsigned timingPayeeTransfer) =
      Except.ok ⟨timingPayerTransfer, sampleAddress, timingPayeeTransfer,
        "payer_pending", "payee_pending"⟩ :=
  mediation_pair_no_timing_check timingPayerTransfer sampleAddress
    timingPayeeTransfer 5 (by decide)

/-- C2 counterexample: the MediationPairState constructor accepts a pair
whose outgoing (payee) lock amount 200 exceeds the incoming (payer) lock
amount 100; both transfers are built through their own checked
constructors. -/
theorem mediation_pair_amount_counterexample :
    LockedTransferSignedState.init 1 2 sampleSignedBalanceProof
        amountPayerLock 3 4 = Except.ok amountPayerTransfer ∧
    LockedTransferUnsignedState.init 1 2 sampleUnsignedBalanceProof
        amountPayeeLock 3 4 = Except.ok amountPayeeTransfer ∧
    MediationPairState.init (PyObj.signed amountPayerTransfer)
        (PyObj.bytes sampleAddress) (PyObj.unsigned amountPayeeTransfer) =
      Except.ok amountPair ∧
    ¬ (amountPair.payee_transfer.lock.amount ≤
        amountPair.payer_transfer.lock.amount) :=
  ⟨rfl, rfl, rfl, by decide⟩

/-- C2 amended: the MediationPairState constructor checks only the
argument types and never the lock amounts; even when the payee lock
amount exceeds the payer lock amount, construction succeeds and yields
the pair with both sides pending. -/
theorem mediation_pair_no_amount_check
    (pt : LockedTransferSignedState) (ad : PyBytes)
    (pe : LockedTransferUnsignedState)
    (h : pt.lock.amount < pe.lock.amount) :
    MediationPairState.init (PyObj.signed pt) (PyObj.bytes ad)
        (PyObj.unsigned pe) =
      Except.ok ⟨pt, ad, pe, "payer_pending", "payee_pending"⟩ :=
  rfl

/-- C2 amended witness: the amended statement at the concrete violating
pair. -/
theorem mediation_pair_no_amount_check_witness :
    MediationPairState.init (PyObj.signed amountPayerTransfer)
        (PyObj.bytes sampleAddress) (PyObj.unsigned amountPayeeTransfer) =
      Except.ok ⟨amountPayerTransfer, sampleAddress, amountPayeeTransfer,
        "payer_pending", "payee_pending"⟩ :=
  mediation_pair_no_amount_check amountPayerTransfer sampleAddress
    amountPayeeTransfer (by decide)

/-- C3: the guard in both LockedTransfer constructors compares the
locksroot to EMPTY_MERKLE_ROOT by object identity, not by value, so a
balance proof whose locksroot is a fresh bytes object holding the empty
merkle root value passes the guard and both constructions succeed even
though the locksroot equals the empty merkle root. -/
theorem locked_transfer_empty_locksroot_guard_bug :
    pyBytesEq emptyValUnsignedBalanceProof.locksroot EMPTY_MERKLE_ROOT = true ∧
    pyBytesEq emptyValSignedBalanceProof.locksroot EMPTY_MERKLE_ROOT = true ∧
    LockedTransferUnsignedState.init 1 2 emptyValUnsignedBalanceProof
        sampleLock 3 4 =
      Except.ok ⟨1, 2, emptyValUnsignedBalanceProof, sampleLock, 3, 4⟩ ∧
    LockedTransferSignedState.init 1 2 emptyValSignedBalanceProof
        sampleLock 3 4 =
      Except.ok ⟨1, 2, emptyValSignedBalanceProof, sampleLock, 3, 4⟩ :=
  ⟨by decide, by decide, rfl, rfl⟩

/-- C10: lockedtransfersigned_from_message applied to a message whose
locksroot came off the wire as 32 zero bytes (value-equal to
EMPTY_MERKLE_ROOT, a distinct object) returns a state instead of raising,
because the constructor guard compares by identity; the returned state
carries exactly the message fields. -/
theorem from_message_empty_locksroot_bug :
    pyBytesEq emptyRootMessage.locksroot EMPTY_MERKLE_ROOT = true ∧
    lockedtransfersigned_from_message emptyRootMessage =
      Except.ok ⟨1, 2, ⟨1, 0, freshEmptyLocksroot, 10, 11, 12, 13⟩,
        ⟨50, 40, 77⟩, 3, 4⟩ :=
  ⟨by decide, rfl⟩

theorem pyBytesEq_iff (a b : PyBytes) :
    pyBytesEq a b = true ↔ a.strip = b.strip := by
  simp [pyBytesEq, PyBytes.strip, PyBytes.mk.injEq]

theorem htlEq_iff (a b : HashTimeLockState) :
    HashTimeLockState.eq a b = true ↔ a = b := by
  cases a; cases b
  simp [HashTimeLockState.eq, HashTimeLockState.mk.injEq, and_assoc]

theorem bpuEq_iff (a b : BalanceProofUnsignedState) :
    BalanceProofUnsignedState.eq a b = true ↔ a.strip = b.strip := by
  cases a; cases b
  simp [BalanceProofUnsignedState.eq, BalanceProofUnsignedState.strip,
    BalanceProofUnsignedState.mk.injEq, pyBytesEq, PyBytes.strip,
    PyBytes.mk.injEq, and_assoc]

theorem bpsEq_iff (a b : BalanceProofSignedState) :
    BalanceProofSignedState.eq a b = true ↔ a.strip = b.strip := by
  cases a; cases b
  simp [BalanceProofSignedState.eq, BalanceProofSignedState.strip,
    BalanceProofSignedState.mk.injEq, pyBytesEq, PyBytes.strip,
    PyBytes.mk.injEq, and_assoc]

theorem ltuEq_iff (a b : LockedTransferUnsignedState) :
    LockedTransferUnsignedState.eq a b = true ↔ a.strip = b.strip := by
  cases a; cases b
  simp [LockedTransferUnsignedState.eq, LockedTransferUnsignedState.strip,
    LockedTransferUnsignedState.mk.injEq, bpuEq_iff, htlEq_iff, and_assoc]

theorem ltsEq_iff (a b : LockedTransferSignedState) :
    LockedTransferSignedState.eq a b = true ↔ a.strip = b.strip := by
  cases a; cases b
  simp [LockedTransferSignedState.eq, LockedTransferSignedState.strip,
    LockedTransferSignedState.mk.injEq, bpsEq_iff, htlEq_iff, and_assoc]

theorem tdEq_iff (a b : TransferDescriptionWithSecretState) :
    TransferDescriptionWithSecretState.eq a b = true ↔ a = b := by
  cases a; cases b
  simp [TransferDescriptionWithSecretState.eq,
    TransferDescriptionWithSecretState.mk.injEq, and_assoc]

theorem ipsEq_iff (a b : InitiatorPaymentState) :
    InitiatorPaymentState.eq a b = true ↔ a = b := by
  cases a; cases b
  simp [InitiatorPaymentState.eq, InitiatorPaymentState.mk.injEq]

theorem optLtuEq_iff (a b : Option LockedTransferUnsignedState) :
    optEqWith LockedTransferUnsignedState.eq a b = true ↔
      a.map LockedTransferUnsignedState.strip =
        b.map LockedTransferUnsignedState.strip := by
  cases a <;> cases b <;> simp [optEqWith, ltuEq_iff]

theorem itsEq_iff (a b : InitiatorTransferState) :
    InitiatorTransferState.eq a b = true ↔ a.strip = b.strip := by
  cases a; cases b
  simp [InitiatorTransferState.eq, InitiatorTransferState.strip,
    InitiatorTransferState.mk.injEq, tdEq_iff, optLtuEq_iff, and_assoc]

theorem pairEq_iff (a b : MediationPairState) :
    MediationPairState.eq a b = true ↔ a.strip = b.strip := by
  cases a; cases b
  simp [MediationPairState.eq, MediationPairState.strip,
    MediationPairState.mk.injEq, pyBytesEq_iff, ltuEq_iff, ltsEq_iff,
    and_assoc]
  tauto

theorem listPairEq_iff (a b : List MediationPairState) :
    listEqWith MediationPairState.eq a b = true ↔
      a.map MediationPairState.strip = b.map MediationPairState.strip := by
  induction a generalizing b with
  | nil => cases b <;> simp [listEqWith]
  | cons x xs ih => cases b <;> simp [listEqWith, pairEq_iff, ih]

theorem mtsEq_iff (a b : MediatorTransferState) :
    MediatorTransferState.eq a b = true ↔ a.strip = b.strip := by
  cases a; cases b
  simp [MediatorTransferState.eq, MediatorTransferState.strip,
    MediatorTransferState.mk.injEq, listPairEq_iff, and_assoc]

theorem ttsEq_iff (a b : TargetTransferState) :
    TargetTransferState.eq a b = true ↔ a.strip = b.strip := by
  cases a; cases b
  simp [TargetTransferState.eq, TargetTransferState.strip,
    TargetTransferState.mk.injEq, ltsEq_iff, and_assoc]

/-- C7: over all state classes of the source file, Python equality is
structural: two values compare equal exactly when they are the same class
and all of that class's compared fields are pairwise equal (equality of
bytes fields being value equality, i.e. equality of the identity-erased
values); inequality is the negation of equality; and values of different
classes are never equal. -/
theorem state_equality_structural :
    (∀ x y : StateValue, stateEq x y = true ↔ x.strip = y.strip) ∧
    (∀ x y : StateValue, stateNe x y = ! stateEq x y) ∧
    (∀ x y : StateValue, kindIdx x ≠ kindIdx y → stateEq x y = false) := by
  refine ⟨?_, fun x y => rfl, ?_⟩
  · intro x y
    cases x <;> cases y <;>
      simp [stateEq, StateValue.strip, ipsEq_iff, itsEq_iff, mtsEq_iff,
        ttsEq_iff, ltuEq_iff, ltsEq_iff, tdEq_iff, pairEq_iff]
  · intro x y h
    cases x <;> cases y <;> simp_all [kindIdx, stateEq]
